import Mathlib

/-!
Shallow embedding of the weather-storage HTTP service (src/app.py).

Python floats are modelled by `PyFloat`: a finite float is carried as a sign,
an integer part and a list of decimal fraction digits (`PyFin`), together with
the special values inf, -inf and nan.  `pyRepr` models the f-string / repr
rendering of a float in the plain-decimal range (latitude/longitude magnitudes),
and `pyFloatOfString` models the float() builtin on plain decimal literals and
the inf/infinity/nan forms.
-/

namespace InRiskApi

/-- The decimal digit characters used by number rendering. -/
def dChar : Nat → Char
  | 0 => '0'
  | 1 => '1'
  | 2 => '2'
  | 3 => '3'
  | 4 => '4'
  | 5 => '5'
  | 6 => '6'
  | 7 => '7'
  | 8 => '8'
  | 9 => '9'
  | _ => '*'

/-- Numeric value of a digit character. -/
def decC (c : Char) : Nat := c.toNat - 48

theorem decC_dChar {d : Nat} (h : d < 10) : decC (dChar d) = d := by
  interval_cases d <;> rfl

theorem dChar_toNat_mem {d : Nat} (h : d < 10) :
    48 ≤ (dChar d).toNat ∧ (dChar d).toNat ≤ 57 := by
  interval_cases d <;> simp [dChar]

/-- Decimal digit characters of n, most significant first; the first
argument is recursion fuel (any bound on n). -/
def natCharsAux : Nat → Nat → List Char
  | 0, _ => []
  | fuel + 1, n =>
      if n = 0 then [] else natCharsAux fuel (n / 10) ++ [dChar (n % 10)]

/-- Decimal rendering of a natural number as a character list. -/
def natChars (n : Nat) : List Char :=
  if n = 0 then ['0'] else natCharsAux n n

/-- Decimal decoding of a character list back to a natural number. -/
def decodeNat (cs : List Char) : Nat := Nat.ofDigits 10 ((cs.map decC).reverse)

theorem mem_natCharsAux_range :
    ∀ (fuel n : Nat), ∀ c ∈ natCharsAux fuel n, 48 ≤ c.toNat ∧ c.toNat ≤ 57 := by
  intro fuel
  induction fuel with
  | zero => intro n c hc; simp [natCharsAux] at hc
  | succ fuel ih =>
      intro n c hc
      unfold natCharsAux at hc
      by_cases h0 : n = 0
      · simp [h0] at hc
      · rw [if_neg h0] at hc
        rcases List.mem_append.mp hc with h | h
        · exact ih _ c h
        · have : c = dChar (n % 10) := by simpa using h
          rw [this]
          exact dChar_toNat_mem (Nat.mod_lt n (by norm_num))

theorem mem_natChars_range {n : Nat} {c : Char} (h : c ∈ natChars n) :
    48 ≤ c.toNat ∧ c.toNat ≤ 57 := by
  unfold natChars at h
  by_cases h0 : n = 0
  · simp [h0] at h
    simp [h]
  · rw [if_neg h0] at h
    exact mem_natCharsAux_range n n c h

theorem natChars_ne_nil (n : Nat) : natChars n ≠ [] := by
  unfold natChars
  by_cases h0 : n = 0
  · simp [h0]
  · rw [if_neg h0]
    obtain ⟨fuel, hf⟩ : ∃ fuel, n = fuel + 1 := ⟨n - 1, by omega⟩
    rw [hf]
    unfold natCharsAux
    rw [if_neg (by omega : ¬(fuel + 1 = 0))]
    simp

theorem decodeNat_append_singleton (cs : List Char) (c : Char) :
    decodeNat (cs ++ [c]) = decC c + 10 * decodeNat cs := by
  unfold decodeNat
  rw [List.map_append, List.reverse_append]
  simp [Nat.ofDigits]

theorem decodeNat_natCharsAux :
    ∀ (fuel n : Nat), n ≤ fuel → decodeNat (natCharsAux fuel n) = n := by
  intro fuel
  induction fuel with
  | zero =>
      intro n hn
      have : n = 0 := by omega
      simp [this, natCharsAux, decodeNat, Nat.ofDigits]
  | succ fuel ih =>
      intro n hn
      unfold natCharsAux
      by_cases h0 : n = 0
      · simp [h0, decodeNat, Nat.ofDigits]
      · rw [if_neg h0, decodeNat_append_singleton,
          ih (n / 10) (by omega), decC_dChar (Nat.mod_lt n (by norm_num))]
        omega

theorem decodeNat_natChars (n : Nat) : decodeNat (natChars n) = n := by
  by_cases h0 : n = 0
  · simp [h0, natChars, decodeNat, Nat.ofDigits]
    rfl
  · unfold natChars
    rw [if_neg h0]
    exact decodeNat_natCharsAux n n le_rfl

/-- A finite Python float in plain decimal form: sign, integer part, and the
list of fraction digits (canonical form has no trailing zero digit). -/
structure PyFin where
  neg : Bool
  ip : Nat
  frac : List Nat
deriving DecidableEq

/-- Canonical finite floats: fraction digits are decimal digits with no
trailing zero (value-preserving normal form produced by parsing). -/
def canonicalFin (f : PyFin) : Prop :=
  (∀ d ∈ f.frac, d < 10) ∧ f.frac.getLast? ≠ some 0

instance : DecidablePred canonicalFin := fun f => by
  unfold canonicalFin
  infer_instance

/-- repr/str rendering of a finite float: sign, integer digits, a decimal
point, then the fraction digits (a lone 0 when there are none). -/
def renderFin (f : PyFin) : List Char :=
  (if f.neg then ['-'] else []) ++ natChars f.ip
    ++ '.' :: (if f.frac = [] then ['0'] else f.frac.map dChar)

/-- Total left inverse of `renderFin` on canonical floats. -/
def decodeFinChars (cs : List Char) : PyFin :=
  let isNeg : Bool := cs.head? == some '-'
  let cs1 := if isNeg then cs.tail else cs
  let ipCs := cs1.takeWhile (fun c => c != '.')
  let rest := cs1.dropWhile (fun c => c != '.')
  let fds := rest.tail.map decC
  ⟨isNeg, decodeNat ipCs, if fds = [0] then [] else fds⟩

theorem takeWhile_append_stop {α : Type} {p : α → Bool} :
    ∀ (xs : List α) (y : α) (ys : List α), (∀ x ∈ xs, p x = true) → p y = false →
      (xs ++ y :: ys).takeWhile p = xs := by
  intro xs y ys hxs hy
  induction xs with
  | nil => simp [List.takeWhile, hy]
  | cons a as ih =>
      have ha : p a = true := hxs a (by simp)
      simp only [List.cons_append, List.takeWhile, ha]
      show a :: List.takeWhile p (as ++ y :: ys) = a :: as
      rw [ih (fun x hx => hxs x (by simp [hx]))]

theorem dropWhile_append_stop {α : Type} {p : α → Bool} :
    ∀ (xs : List α) (y : α) (ys : List α), (∀ x ∈ xs, p x = true) → p y = false →
      (xs ++ y :: ys).dropWhile p = y :: ys := by
  intro xs y ys hxs hy
  induction xs with
  | nil => simp [List.dropWhile, hy]
  | cons a as ih =>
      have ha : p a = true := hxs a (by simp)
      simp only [List.cons_append, List.dropWhile, ha]
      show List.dropWhile p (as ++ y :: ys) = y :: ys
      exact ih (fun x hx => hxs x (by simp [hx]))

theorem natChars_no_dot {ip : Nat} : ∀ c ∈ natChars ip, (c != '.') = true := by
  intro c hc
  have h1 := mem_natChars_range hc
  have h2 : c.toNat ≠ 46 := by omega
  simp only [bne_iff_ne, ne_eq]
  intro hcd
  exact h2 (by rw [hcd]; rfl)

theorem natChars_no_minus {ip : Nat} : ∀ c ∈ natChars ip, c ≠ '-' := by
  intro c hc hcd
  have h1 := (mem_natChars_range hc).1
  have h2 : ('-' : Char).toNat = 45 := by decide
  rw [hcd, h2] at h1
  omega

theorem decodeFinChars_shape (neg : Bool) (ip : Nat) (fracCs : List Char) :
    decodeFinChars ((if neg then ['-'] else []) ++ natChars ip ++ '.' :: fracCs)
      = ⟨neg, ip, if fracCs.map decC = [0] then [] else fracCs.map decC⟩ := by
  have hdotF : (('.' : Char) != '.') = false := by decide
  cases neg with
  | true =>
      have hl : ((if true then ['-'] else []) : List Char) ++ natChars ip ++ '.' :: fracCs
          = '-' :: (natChars ip ++ '.' :: fracCs) := by simp
      rw [hl]
      unfold decodeFinChars
      simp only [List.head?_cons, List.tail_cons, beq_self_eq_true, if_true]
      rw [takeWhile_append_stop _ _ _ natChars_no_dot hdotF,
        dropWhile_append_stop _ _ _ natChars_no_dot hdotF]
      simp [decodeNat_natChars]
  | false =>
      have hl : ((if false then ['-'] else []) : List Char) ++ natChars ip ++ '.' :: fracCs
          = natChars ip ++ '.' :: fracCs := by simp
      rw [hl]
      obtain ⟨c0, cs0, hcons⟩ := List.exists_cons_of_ne_nil (natChars_ne_nil ip)
      have hc0 : c0 ∈ natChars ip := by rw [hcons]; simp
      have hbeq : (((natChars ip ++ '.' :: fracCs).head? == some '-') : Bool) = false := by
        rw [hcons]
        simp only [List.cons_append, List.head?_cons, beq_eq_false_iff_ne, ne_eq,
          Option.some.injEq]
        exact natChars_no_minus c0 hc0
      unfold decodeFinChars
      simp only [hbeq, Bool.false_eq_true, if_false]
      rw [takeWhile_append_stop _ _ _ natChars_no_dot hdotF,
        dropWhile_append_stop _ _ _ natChars_no_dot hdotF]
      simp [decodeNat_natChars]

theorem decode_renderFin (f : PyFin) (h : canonicalFin f) :
    decodeFinChars (renderFin f) = f := by
  obtain ⟨neg, ip, frac⟩ := f
  obtain ⟨hdig, hlast⟩ := h
  dsimp only at hdig hlast
  unfold renderFin
  rw [decodeFinChars_shape]
  refine congrArg (PyFin.mk neg ip) ?_
  by_cases hfe : frac = []
  · simp [hfe, decC]
  · have hmap : (if frac = [] then ['0'] else frac.map dChar).map decC = frac := by
      rw [if_neg hfe, List.map_map]
      simp only [Function.comp_def]
      rw [List.map_congr_left (fun d hd => decC_dChar (hdig d hd))]
      simp
    rw [hmap]
    have hne : frac ≠ [0] := by
      intro hq
      rw [hq] at hlast
      simp at hlast
    rw [if_neg hne]

theorem renderFin_inj {f g : PyFin} (hf : canonicalFin f) (hg : canonicalFin g)
    (h : renderFin f = renderFin g) : f = g := by
  have := congrArg decodeFinChars h
  rwa [decode_renderFin f hf, decode_renderFin g hg] at this

/-- A Python float: a finite decimal value or one of the special values. -/
inductive PyFloat where
  | finite (f : PyFin)
  | inf
  | ninf
  | nan
deriving DecidableEq

/-- Canonical floats: the finite ones carry a canonical digit representation. -/
def canonicalPF : PyFloat → Prop
  | .finite f => canonicalFin f
  | _ => True

instance : DecidablePred canonicalPF := fun x => by
  unfold canonicalPF
  cases x <;> infer_instance

/-- repr / str / f-string rendering of a Python float in the plain decimal
range (no scientific notation, as for latitude/longitude magnitudes). -/
def pyRepr : PyFloat → String
  | .finite f => String.mk (renderFin f)
  | .inf => "inf"
  | .ninf => "-inf"
  | .nan => "nan"

theorem dot_mem_renderFin (f : PyFin) : '.' ∈ renderFin f := by
  unfold renderFin
  simp

theorem strData_inj {s t : String} (h : s.data = t.data) : s = t := by
  cases s
  cases t
  exact congrArg String.mk h

theorem mkString_ne_special (f : PyFin) (s : String) (hs : '.' ∉ s.data) :
    String.mk (renderFin f) ≠ s := by
  intro h
  have hd : renderFin f = s.data := congrArg String.data h
  exact hs (hd ▸ dot_mem_renderFin f)

theorem pyRepr_inj {x y : PyFloat} (hx : canonicalPF x) (hy : canonicalPF y)
    (h : pyRepr x = pyRepr y) : x = y := by
  cases x <;> cases y <;> simp only [pyRepr] at h
  case finite.finite f g =>
      have hfg : renderFin f = renderFin g := congrArg String.data h
      rw [renderFin_inj hx hy hfg]
  case finite.inf f => exact absurd h (mkString_ne_special f "inf" (by decide))
  case finite.ninf f => exact absurd h (mkString_ne_special f "-inf" (by decide))
  case finite.nan f => exact absurd h (mkString_ne_special f "nan" (by decide))
  case inf.finite g => exact absurd h.symm (mkString_ne_special g "inf" (by decide))
  case ninf.finite g => exact absurd h.symm (mkString_ne_special g "-inf" (by decide))
  case nan.finite g => exact absurd h.symm (mkString_ne_special g "nan" (by decide))
  case inf.inf => rfl
  case ninf.ninf => rfl
  case nan.nan => rfl
  case inf.ninf => exact absurd h (by decide)
  case inf.nan => exact absurd h (by decide)
  case ninf.inf => exact absurd h (by decide)
  case ninf.nan => exact absurd h (by decide)
  case nan.inf => exact absurd h (by decide)
  case nan.ninf => exact absurd h (by decide)

/-- Drops trailing zero digits of a fraction digit list. -/
def stripTrailingZeros (l : List Nat) : List Nat :=
  (l.reverse.dropWhile (fun d => d == 0)).reverse

/-- Models the float() builtin on plain decimal literals (optional sign,
integer digits, optional decimal point and fraction digits) and on the
case-insensitive inf / infinity / nan forms, with surrounding whitespace
stripped.  Exponent forms are outside the modelled input domain.  Returns
none where float() raises ValueError. -/
def pyFloatOfString (s : String) : Option PyFloat :=
  let ws : Char → Bool := fun c => c == ' ' || c == '\t' || c == '\n' || c == '\r'
  let cs0 := (s.data.dropWhile ws).reverse
  let cs1 := (cs0.dropWhile ws).reverse
  let signed : Bool × List Char :=
    match cs1 with
    | '+' :: r => (false, r)
    | '-' :: r => (true, r)
    | r => (false, r)
  let neg := signed.1
  let body := signed.2
  let lower := body.map Char.toLower
  if lower = "inf".data ∨ lower = "infinity".data then
    some (if neg then PyFloat.ninf else PyFloat.inf)
  else if lower = "nan".data then
    some PyFloat.nan
  else
    let ipCs := body.takeWhile Char.isDigit
    let rest := body.dropWhile Char.isDigit
    match rest with
    | [] =>
        if ipCs = [] then none
        else some (PyFloat.finite ⟨neg, decodeNat ipCs, []⟩)
    | '.' :: fracCs =>
        if fracCs.all Char.isDigit ∧ ¬(ipCs = [] ∧ fracCs = []) then
          some (PyFloat.finite ⟨neg, decodeNat ipCs, stripTrailingZeros (fracCs.map decC)⟩)
        else none
    | _ => none

/-- Python truthiness of a float: exactly the two zero values are falsy. -/
def truthyFloat : PyFloat → Bool
  | .finite f => !(f.ip == 0 && f.frac.all (fun d => d == 0))
  | _ => true

/-- A JSON value appearing in a request body field (string or number). -/
inductive ReqVal where
  | str (s : String)
  | num (x : PyFloat)
deriving DecidableEq

/-- The Python exception class raised by float(): TypeError on None,
ValueError on an unparsable string. -/
inductive PyErr where
  | typeErr
  | valueErr
deriving DecidableEq

deriving instance DecidableEq for Except

/-- Models float(data.get(key)): absent key gives None hence TypeError,
a number passes through, a string is parsed. -/
def toFloat : Option ReqVal → Except PyErr PyFloat
  | none => .error .typeErr
  | some (.num x) => .ok x
  | some (.str s) =>
      match pyFloatOfString s with
      | some x => .ok x
      | none => .error .valueErr

/-- Gregorian leap year rule, as used by datetime. -/
def isLeapYear (y : Nat) : Bool :=
  (y % 4 == 0 && y % 100 != 0) || y % 400 == 0

def daysInMonth (y m : Nat) : Nat :=
  if m = 2 then (if isLeapYear y then 29 else 28)
  else if m = 4 ∨ m = 6 ∨ m = 9 ∨ m = 11 then 30
  else 31

/-- A calendar date as produced by datetime.strptime(s, "%Y-%m-%d").date(). -/
structure PyDate where
  year : Nat
  month : Nat
  day : Nat
deriving DecidableEq

/-- Splits a character list at each dash, keeping empty groups, as
string splitting does. -/
def splitOnDash : List Char → List (List Char)
  | [] => [[]]
  | c :: rest =>
      match splitOnDash rest with
      | [] => if c = '-' then [[], [c]] else [[c]]
      | g :: gs => if c = '-' then [] :: g :: gs else (c :: g) :: gs

/-- Models datetime.strptime(s, "%Y-%m-%d"): three dash-separated digit
groups (1-4 digit year, 1-2 digit month and day) denoting an existing
calendar date.  Returns none where strptime raises ValueError. -/
def parseDate (s : String) : Option PyDate :=
  match splitOnDash s.data with
  | [ys, ms, ds] =>
      if ys.all Char.isDigit ∧ 1 ≤ ys.length ∧ ys.length ≤ 4
          ∧ ms.all Char.isDigit ∧ 1 ≤ ms.length ∧ ms.length ≤ 2
          ∧ ds.all Char.isDigit ∧ 1 ≤ ds.length ∧ ds.length ≤ 2 then
        let y := decodeNat ys
        let m := decodeNat ms
        let d := decodeNat ds
        if 1 ≤ y ∧ y ≤ 9999 ∧ 1 ≤ m ∧ m ≤ 12 ∧ 1 ≤ d ∧ d ≤ daysInMonth y m then
          some ⟨y, m, d⟩
        else none
      else none
  | _ => none

/-- Numeric key that orders valid calendar dates chronologically. -/
def dateKey (d : PyDate) : Nat :=
  d.year * 10000 + d.month * 100 + d.day

/-- Civil (proleptic Gregorian) date of a day count since 1970-01-01,
following the standard days-to-civil conversion used by date libraries. -/
def civilFromDays (z : Int) : Nat × Nat × Nat :=
  let zz := z + 719468
  let era := zz.fdiv 146097
  let doe := (zz - era * 146097).toNat
  let yoe := (doe - doe / 1460 + doe / 36524 - doe / 146096) / 365
  let doy := doe - (365 * yoe + yoe / 4 - yoe / 100)
  let mp := (5 * doy + 2) / 153
  let d := doy - (153 * mp + 2) / 5 + 1
  let m := if mp < 10 then mp + 3 else mp - 9
  let y : Int := (yoe : Int) + era * 400 + (if m ≤ 2 then 1 else 0)
  (y.toNat, m, d)

/-- Zero-padded decimal rendering, k characters wide. -/
def padChars (k n : Nat) : List Char :=
  List.replicate (k - (natChars n).length) '0' ++ natChars n

/-- Models strftime of a UTC timestamp (epoch seconds) with format %Y-%m-%d. -/
def fmtDate (ts : Int) : String :=
  let c := civilFromDays (ts.fdiv 86400)
  String.mk (padChars 4 c.1 ++ '-' :: padChars 2 c.2.1 ++ '-' :: padChars 2 c.2.2)

/-- The DailySeries dictionary built at lines 83-96 of src/app.py: a date
list plus the six named numeric columns in their fixed order. -/
structure DailySeries where
  date : List String
  temperature_2m_max : List PyFloat
  temperature_2m_min : List PyFloat
  temperature_2m_mean : List PyFloat
  apparent_temperature_max : List PyFloat
  apparent_temperature_min : List PyFloat
  apparent_temperature_mean : List PyFloat
deriving DecidableEq

/-- The upstream daily block: start and end instants (epoch seconds),
the step in seconds, and the six numeric columns indexed 0-5. -/
structure DailyBlock where
  time : Int
  timeEnd : Int
  interval : Nat
  cols : Fin 6 → List PyFloat

/-- The upstream response: resolved coordinates plus the daily block. -/
structure UpstreamResponse where
  latitude : PyFloat
  longitude : PyFloat
  daily : DailyBlock

/-- Number of points of pd.date_range(time, timeEnd, freq := interval,
inclusive := left): the k with time + k * interval < timeEnd. -/
def numDays (d : DailyBlock) : Nat :=
  ((d.timeEnd - d.time).toNat + d.interval - 1) / d.interval

/-- Lines 83-96 of src/app.py: the generated date strings and the six
columns copied verbatim into the named arrays. -/
def reshape (d : DailyBlock) : DailySeries :=
  { date := (List.range (numDays d)).map
      (fun k => fmtDate (d.time + (k : Int) * (d.interval : Int))),
    temperature_2m_max := d.cols 0,
    temperature_2m_min := d.cols 1,
    temperature_2m_mean := d.cols 2,
    apparent_temperature_max := d.cols 3,
    apparent_temperature_min := d.cols 4,
    apparent_temperature_mean := d.cols 5 }

/-- The persisted object built at lines 99-105 of src/app.py. -/
structure WeatherRecord where
  latitude : PyFloat
  longitude : PyFloat
  start_date : String
  end_date : String
  daily_data : DailySeries
deriving DecidableEq

/-- The JSON request body of POST /store-weather-data; each field is the
result of data.get on the corresponding key (none when absent). -/
structure ReqBody where
  latitude : Option ReqVal
  longitude : Option ReqVal
  start_date : Option String
  end_date : Option String

/-- Response bodies of the store endpoint, one constructor per literal
jsonify payload in src/app.py. -/
inductive RespBody where
  | invalidJson
  | missingParams
  | valueError
  | rangeError
  | upstreamError
  | unexpected
  | success (file_name : String)
deriving DecidableEq

/-- Line 106 of src/app.py: the f-string object key built from the
request floats and the original date strings. -/
def mkFileName (lat lon : PyFloat) (sd ed : String) : String :=
  "weather_data_" ++ pyRepr lat ++ "_" ++ pyRepr lon ++ "_" ++ sd ++ "_to_" ++ ed ++ ".json"

/-- Python truthiness of a string field obtained via data.get: absent
(None) and the empty string are falsy. -/
def truthyOptStr : Option String → Bool
  | none => false
  | some s => !(s == "")

/-- The store-weather-data handler (lines 36-121 of src/app.py) as a
function of the decoded request body, an oracle for the upstream response
list, and an oracle for whether the storage upload succeeds.  The result
is the HTTP response paired with the list of objects written to the
bucket during the request. -/
def store_weather_data (data0 : Option ReqBody) (upstream : List UpstreamResponse)
    (putOk : Bool) : (Nat × RespBody) × List (String × WeatherRecord) :=
  match data0 with
  | none => ((400, .invalidJson), [])
  | some data =>
    match toFloat data.latitude with
    | .error .valueErr => ((400, .valueError), [])
    | .error .typeErr => ((500, .unexpected), [])
    | .ok latitude =>
      match toFloat data.longitude with
      | .error .valueErr => ((400, .valueError), [])
      | .error .typeErr => ((500, .unexpected), [])
      | .ok longitude =>
        if !(truthyFloat latitude && truthyFloat longitude
            && truthyOptStr data.start_date && truthyOptStr data.end_date) then
          ((400, .missingParams), [])
        else
          match parseDate (data.start_date.getD "") with
          | none => ((400, .valueError), [])
          | some start_date_object =>
            match parseDate (data.end_date.getD "") with
            | none => ((400, .valueError), [])
            | some end_date_object =>
              if dateKey end_date_object < dateKey start_date_object then
                ((400, .rangeError), [])
              else
                match upstream with
                | [] => ((502, .upstreamError), [])
                | response_data :: _ =>
                  let file_name := mkFileName latitude longitude
                    (data.start_date.getD "") (data.end_date.getD "")
                  let file_data : WeatherRecord :=
                    { latitude := response_data.latitude,
                      longitude := response_data.longitude,
                      start_date := data.start_date.getD "",
                      end_date := data.end_date.getD "",
                      daily_data := reshape response_data.daily }
                  if putOk then ((200, .success file_name), [(file_name, file_data)])
                  else ((500, .unexpected), [])

/-- Response bodies of GET /weather-file-content, parametric in the type
of decoded JSON values. -/
inductive GetBody (α : Type) where
  | notFound
  | content (j : α)
  | failure
deriving DecidableEq

/-- The weather-file-content handler (lines 138-158 of src/app.py) as a
function of the bucket contents and of the json.loads decoder. -/
def get_weather_file_content {α : Type} (bucket : String → Option String)
    (loads : String → Option α) (file_name : String) : Nat × GetBody α :=
  match bucket file_name with
  | none => (404, .notFound)
  | some content =>
      match loads content with
      | some j => (200, .content j)
      | none => (500, .failure)

theorem truthy_of_parseDate {sd : String} {d : PyDate} (h : parseDate sd = some d) :
    truthyOptStr (some sd) = true := by
  by_cases hs : sd = ""
  · subst hs
    have h2 := congrArg Option.isSome h
    rw [show (parseDate "").isSome = false by decide] at h2
    simp at h2
  · simp [truthyOptStr, hs]

/-- Reduction of the handler once both floats parse, all four fields are
truthy and both dates parse: only the range check, the upstream response
and the upload outcome remain. -/
theorem swd_steps (data : ReqBody) (lat lon : PyFloat) (sd ed : String)
    (sdo edo : PyDate) (upstream : List UpstreamResponse) (putOk : Bool)
    (hlat : toFloat data.latitude = .ok lat)
    (hlon : toFloat data.longitude = .ok lon)
    (htla : truthyFloat lat = true) (htlo : truthyFloat lon = true)
    (hsd : data.start_date = some sd) (hed : data.end_date = some ed)
    (hps : parseDate sd = some sdo) (hpe : parseDate ed = some edo) :
    store_weather_data (some data) upstream putOk =
      if dateKey edo < dateKey sdo then ((400, .rangeError), [])
      else
        match upstream with
        | [] => ((502, .upstreamError), [])
        | r :: _ =>
            if putOk then
              ((200, .success (mkFileName lat lon sd ed)),
                [(mkFileName lat lon sd ed,
                  ⟨r.latitude, r.longitude, sd, ed, reshape r.daily⟩)])
            else ((500, .unexpected), []) := by
  simp only [store_weather_data]
  rw [hlat, hlon, hsd, hed]
  simp only [htla, htlo, truthy_of_parseDate hps, truthy_of_parseDate hpe,
    Bool.and_self, Bool.not_true, Bool.false_eq_true, if_false,
    Option.getD_some, hps, hpe]

/-- Given parsed floats, the missing-parameters response occurs exactly
when the truthiness test of line 47 fails. -/
theorem swd_missing_iff (data : ReqBody) (lat lon : PyFloat)
    (upstream : List UpstreamResponse) (putOk : Bool)
    (hlat : toFloat data.latitude = .ok lat)
    (hlon : toFloat data.longitude = .ok lon) :
    (store_weather_data (some data) upstream putOk).1.2 = RespBody.missingParams
      ↔ (truthyFloat lat && truthyFloat lon && truthyOptStr data.start_date
          && truthyOptStr data.end_date) = false := by
  simp only [store_weather_data, hlat, hlon]
  cases hcond : (truthyFloat lat && truthyFloat lon && truthyOptStr data.start_date
      && truthyOptStr data.end_date) with
  | false => simp
  | true =>
      simp only [Bool.not_true, Bool.false_eq_true, if_false]
      constructor
      · intro h
        exfalso
        repeat' split at h
        all_goals simp at h
      · intro h
        exact absurd h (by decide)

theorem lt_numDays_iff (d : DailyBlock) (hpos : 0 < d.interval) (k : Nat) :
    k < numDays d ↔ d.time + (k : Int) * (d.interval : Int) < d.timeEnd := by
  unfold numDays
  have hsm : (k + 1) * d.interval = k * d.interval + d.interval := by ring
  have hcast : ((k * d.interval : Nat) : Int) = (k : Int) * (d.interval : Int) := by
    push_cast
    ring
  constructor
  · intro h
    have h2 := (Nat.le_div_iff_mul_le hpos).mp h
    rw [hsm] at h2
    omega
  · intro h
    have h2 : k * d.interval + d.interval ≤ (d.timeEnd - d.time).toNat + d.interval - 1 := by
      omega
    rw [← hsm] at h2
    exact (Nat.le_div_iff_mul_le hpos).mpr h2

theorem strDataAppend (a b : String) : (a ++ b).data = a.data ++ b.data := rfl

/-- The float values that are falsy in Python: plus and minus zero. -/
def isZeroFloat : PyFloat → Prop
  | .finite f => f.ip = 0 ∧ ∀ d ∈ f.frac, d = 0
  | _ => False

instance : DecidablePred isZeroFloat := fun x => by
  unfold isZeroFloat
  cases x <;> infer_instance

theorem truthyFloat_eq_false_iff (x : PyFloat) :
    truthyFloat x = false ↔ isZeroFloat x := by
  cases x with
  | finite f =>
      simp [truthyFloat, isZeroFloat, List.all_eq_true]
  | inf => simp [truthyFloat, isZeroFloat]
  | ninf => simp [truthyFloat, isZeroFloat]
  | nan => simp [truthyFloat, isZeroFloat]

theorem truthyOptStr_eq_false_iff (o : Option String) :
    truthyOptStr o = false ↔ o = none ∨ o = some "" := by
  cases o with
  | none => simp [truthyOptStr]
  | some s => simp [truthyOptStr]

/-- When the truthiness test of line 47 fails, the handler answers 400
Missing required parameters and writes nothing. -/
theorem swd_missing_of_false (data : ReqBody) (lat lon : PyFloat)
    (upstream : List UpstreamResponse) (putOk : Bool)
    (hlat : toFloat data.latitude = .ok lat)
    (hlon : toFloat data.longitude = .ok lon)
    (hc : (truthyFloat lat && truthyFloat lon && truthyOptStr data.start_date
        && truthyOptStr data.end_date) = false) :
    store_weather_data (some data) upstream putOk = ((400, .missingParams), []) := by
  simp only [store_weather_data, hlat, hlon, hc]
  simp

/-- An absent latitude key makes float(None) raise TypeError, answered as
HTTP 500 by the catch-all handler. -/
theorem swd_latitude_absent (data : ReqBody)
    (upstream : List UpstreamResponse) (putOk : Bool)
    (hlat : data.latitude = none) :
    store_weather_data (some data) upstream putOk = ((500, .unexpected), []) := by
  simp only [store_weather_data, hlat]
  rfl

theorem numDays_eq_zero {d : DailyBlock} (h : d.timeEnd ≤ d.time) : numDays d = 0 := by
  unfold numDays
  have h0 : (d.timeEnd - d.time).toNat = 0 := by omega
  rw [h0]
  by_cases hi : d.interval = 0
  · simp [hi]
  · exact Nat.div_eq_of_lt (by omega)

/-- Every run of the handler either answers 200 or writes nothing. -/
theorem swd_success_or_silent (data0 : Option ReqBody)
    (upstream : List UpstreamResponse) (putOk : Bool) :
    (store_weather_data data0 upstream putOk).1.1 = 200
      ∨ (store_weather_data data0 upstream putOk).2 = [] := by
  unfold store_weather_data
  repeat' split
  all_goals first | (right ; rfl) | (left ; rfl)

theorem conj4_false_iff {a b c d : Bool} :
    (a && b && c && d) = false ↔ a = false ∨ b = false ∨ c = false ∨ d = false := by
  cases a <;> cases b <;> cases c <;> cases d <;> simp

/-- C2 (amended): given that both coordinate fields parse as floats, the
endpoint answers 400 Missing required parameters exactly when a parsed
coordinate is a zero float or a date field is absent or the empty string;
and a body whose latitude key is absent is answered 500, not 400. -/
theorem C2_missing_characterization :
    (∀ (data : ReqBody) (lat lon : PyFloat) (upstream : List UpstreamResponse) (putOk : Bool),
        toFloat data.latitude = .ok lat → toFloat data.longitude = .ok lon →
        ((store_weather_data (some data) upstream putOk).1 = (400, RespBody.missingParams)
          ↔ (isZeroFloat lat ∨ isZeroFloat lon
              ∨ data.start_date = none ∨ data.start_date = some ""
              ∨ data.end_date = none ∨ data.end_date = some "")))
    ∧ (∀ (data : ReqBody) (upstream : List UpstreamResponse) (putOk : Bool),
        data.latitude = none →
        (store_weather_data (some data) upstream putOk).1 = (500, RespBody.unexpected)) := by
  constructor
  · intro data lat lon upstream putOk hlat hlon
    constructor
    · intro h
      have h2 : (store_weather_data (some data) upstream putOk).1.2
          = RespBody.missingParams := by rw [h]
      have h3 := (swd_missing_iff data lat lon upstream putOk hlat hlon).mp h2
      rcases conj4_false_iff.mp h3 with hx | hx | hx | hx
      · exact Or.inl ((truthyFloat_eq_false_iff lat).mp hx)
      · exact Or.inr (Or.inl ((truthyFloat_eq_false_iff lon).mp hx))
      · rcases (truthyOptStr_eq_false_iff _).mp hx with hs | hs
        · exact Or.inr (Or.inr (Or.inl hs))
        · exact Or.inr (Or.inr (Or.inr (Or.inl hs)))
      · rcases (truthyOptStr_eq_false_iff _).mp hx with hs | hs
        · exact Or.inr (Or.inr (Or.inr (Or.inr (Or.inl hs))))
        · exact Or.inr (Or.inr (Or.inr (Or.inr (Or.inr hs))))
    · intro h
      have hc : (truthyFloat lat && truthyFloat lon && truthyOptStr data.start_date
          && truthyOptStr data.end_date) = false := by
        apply conj4_false_iff.mpr
        rcases h with hx | hx | hx | hx | hx | hx
        · exact Or.inl ((truthyFloat_eq_false_iff lat).mpr hx)
        · exact Or.inr (Or.inl ((truthyFloat_eq_false_iff lon).mpr hx))
        · exact Or.inr (Or.inr (Or.inl ((truthyOptStr_eq_false_iff _).mpr (Or.inl hx))))
        · exact Or.inr (Or.inr (Or.inl ((truthyOptStr_eq_false_iff _).mpr (Or.inr hx))))
        · exact Or.inr (Or.inr (Or.inr ((truthyOptStr_eq_false_iff _).mpr (Or.inl hx))))
        · exact Or.inr (Or.inr (Or.inr ((truthyOptStr_eq_false_iff _).mpr (Or.inr hx))))
      rw [swd_missing_of_false data lat lon upstream putOk hlat hlon hc]
  · intro data upstream putOk hlat
    rw [swd_latitude_absent data upstream putOk hlat]

/-- C2 counterexample: a body whose four keys are all present with
non-empty values (latitude the string 0) is still rejected as missing,
while a body with the latitude key absent is answered 500 rather than
400, refuting the claimed iff with key absence or emptiness. -/
theorem C2_counterexample :
    (store_weather_data (some ⟨some (.str "0"), some (.str "13.405"),
        some "2023-01-01", some "2023-01-03"⟩) [] true).1 = (400, RespBody.missingParams)
    ∧ some (ReqVal.str "0") ≠ none ∧ ("0" : String) ≠ ""
    ∧ (store_weather_data (some ⟨none, some (.str "13.405"),
        some "2023-01-01", some "2023-01-03"⟩) [] true).1 = (500, RespBody.unexpected) := by
  decide

/-- C2 witness: the amended characterization applied to a concrete body
whose latitude parses to the float zero. -/
theorem C2_witness :
    (store_weather_data (some ⟨some (.num (.finite ⟨false, 0, []⟩)), some (.str "13.405"),
        some "2023-01-01", some "2023-01-03"⟩) [] true).1 = (400, RespBody.missingParams) :=
  (C2_missing_characterization.1
      ⟨some (.num (.finite ⟨false, 0, []⟩)), some (.str "13.405"),
        some "2023-01-01", some "2023-01-03"⟩
      (.finite ⟨false, 0, []⟩) (.finite ⟨false, 13, [4, 0, 5]⟩) [] true
      (by decide) (by decide)).mpr (Or.inl (by decide))

/-- C3 (amended): a present coordinate string on which float parsing
fails is answered 400 with the ValueError message; but strings denoting
infinity or NaN parse successfully, hence are never rejected that way. -/
theorem C3_invalid_number (data : ReqBody) (upstream : List UpstreamResponse)
    (putOk : Bool) :
    (toFloat data.latitude = .error .valueErr →
      store_weather_data (some data) upstream putOk = ((400, RespBody.valueError), []))
    ∧ (∀ lat, toFloat data.latitude = .ok lat →
        toFloat data.longitude = .error .valueErr →
        store_weather_data (some data) upstream putOk = ((400, RespBody.valueError), []))
    ∧ (∀ s, pyFloatOfString s = some PyFloat.inf ∨ pyFloatOfString s = some PyFloat.ninf
        ∨ pyFloatOfString s = some PyFloat.nan →
        toFloat (some (.str s)) ≠ .error .valueErr) := by
  refine ⟨?_, ?_, ?_⟩
  · intro h
    simp [store_weather_data, h]
  · intro lat hlat hlon
    simp [store_weather_data, hlat, hlon]
  · intro t h
    rcases h with h | h | h <;> simp [toFloat, h]

/-- C3 counterexample: latitude supplied as the string inf parses as a
float, so the request is not rejected with 400 and proceeds to a 200
success, refuting the claim that infinity values fail as InvalidNumber. -/
theorem C3_counterexample :
    pyFloatOfString "inf" = some PyFloat.inf
    ∧ (store_weather_data (some ⟨some (.str "inf"), some (.str "13.405"),
        some "2023-01-01", some "2023-01-03"⟩)
        [⟨PyFloat.inf, PyFloat.nan, ⟨0, 0, 86400, fun _ => []⟩⟩] true).1.1 = 200 := by
  decide

/-- C3 witness: the amended theorem applied to a body whose latitude is
the unparsable string abc. -/
theorem C3_witness :
    store_weather_data (some ⟨some (.str "abc"), some (.str "1"),
        some "2023-01-01", some "2023-01-03"⟩) [] true = ((400, RespBody.valueError), []) :=
  (C3_invalid_number _ [] true).1 (by decide)

/-- C9: a request whose latitude or longitude parses to a zero float is
answered 400 Missing required parameters with no object written, and the
outcome is the same for every upstream oracle and upload outcome, so
neither the upstream API nor the object store affects it. -/
theorem C9_zero_coordinate_rejected (data : ReqBody) (lat lon : PyFloat)
    (hlat : toFloat data.latitude = .ok lat)
    (hlon : toFloat data.longitude = .ok lon)
    (hzero : isZeroFloat lat ∨ isZeroFloat lon) :
    ∀ (upstream : List UpstreamResponse) (putOk : Bool),
      store_weather_data (some data) upstream putOk = ((400, RespBody.missingParams), []) := by
  intro upstream putOk
  apply swd_missing_of_false data lat lon upstream putOk hlat hlon
  apply conj4_false_iff.mpr
  rcases hzero with hz | hz
  · exact Or.inl ((truthyFloat_eq_false_iff lat).mpr hz)
  · exact Or.inr (Or.inl ((truthyFloat_eq_false_iff lon).mpr hz))

/-- C9 witness: a concrete zero-latitude body, with a non-trivial
upstream oracle and a failing upload oracle, still yields exactly the
missing-parameters response and no write. -/
theorem C9_witness :
    store_weather_data (some ⟨some (.num (.finite ⟨false, 0, []⟩)), some (.str "13.405"),
        some "2023-01-01", some "2023-01-03"⟩)
      [⟨PyFloat.inf, PyFloat.inf, ⟨0, 86400, 86400, fun _ => []⟩⟩] false
      = ((400, RespBody.missingParams), []) :=
  C9_zero_coordinate_rejected
    ⟨some (.num (.finite ⟨false, 0, []⟩)), some (.str "13.405"),
      some "2023-01-01", some "2023-01-03"⟩
    (.finite ⟨false, 0, []⟩) (.finite ⟨false, 13, [4, 0, 5]⟩)
    (by decide) (by decide) (Or.inl (by decide)) _ _

/-- C10: whenever the handler answers a status other than 200, the list
of objects written to the bucket during the request is empty. -/
theorem C10_no_write_on_error (data0 : Option ReqBody)
    (upstream : List UpstreamResponse) (putOk : Bool) :
    (store_weather_data data0 upstream putOk).1.1 ≠ 200 →
    (store_weather_data data0 upstream putOk).2 = [] := by
  intro h
  rcases swd_success_or_silent data0 upstream putOk with h200 | hnil
  · exact absurd h200 h
  · exact hnil

/-- C10 witness: the invalid-JSON response carries no writes. -/
theorem C10_witness :
    (store_weather_data none [] true).1.1 ≠ 200
    ∧ (store_weather_data none [] true).2 = [] :=
  ⟨by decide, C10_no_write_on_error none [] true (by decide)⟩

/-- C8: the content endpoint answers 404 File not found exactly when the
key is absent from the bucket, and answers 200 with the decoded value
when the key is present and its content decodes as JSON. -/
theorem C8_get_content {α : Type} (bucket : String → Option String)
    (loads : String → Option α) (file_name : String) :
    (get_weather_file_content bucket loads file_name = (404, GetBody.notFound)
        ↔ bucket file_name = none)
    ∧ (∀ content j, bucket file_name = some content → loads content = some j →
        get_weather_file_content bucket loads file_name = (200, GetBody.content j)) := by
  constructor
  · cases hb : bucket file_name with
    | none => simp [get_weather_file_content, hb]
    | some c =>
        simp only [get_weather_file_content, hb]
        cases hl : loads c with
        | none => simp
        | some j => simp
  · intro content j hb hl
    simp [get_weather_file_content, hb, hl]

/-- C8 witness: a one-key bucket whose content decodes to a numeric
value, looked up at that key. -/
theorem C8_witness :
    get_weather_file_content (fun k => if k = "f.json" then some "3" else none)
      (fun c => if c = "3" then some (3 : Nat) else none) "f.json"
      = (200, GetBody.content 3) :=
  (C8_get_content _ _ _).2 "3" 3 (by simp) (by simp)

/-- C4: once both coordinates parse and are truthy and both dates parse,
the endpoint answers 400 Start date must be before end date exactly when
start_date is strictly after end_date; equal dates are never answered
with the range error, and when the upstream block covers an empty
half-open range the stored series has an empty date list. -/
theorem C4_range_check (data : ReqBody) (lat lon : PyFloat) (sd ed : String)
    (sdo edo : PyDate) (upstream : List UpstreamResponse) (putOk : Bool)
    (hlat : toFloat data.latitude = .ok lat)
    (hlon : toFloat data.longitude = .ok lon)
    (htla : truthyFloat lat = true) (htlo : truthyFloat lon = true)
    (hsd : data.start_date = some sd) (hed : data.end_date = some ed)
    (hps : parseDate sd = some sdo) (hpe : parseDate ed = some edo) :
    ((store_weather_data (some data) upstream putOk).1 = (400, RespBody.rangeError)
        ↔ dateKey edo < dateKey sdo)
    ∧ (sd = ed →
        (store_weather_data (some data) upstream putOk).1 ≠ (400, RespBody.rangeError))
    ∧ (∀ r rest, upstream = r :: rest → r.daily.timeEnd ≤ r.daily.time →
        ∀ w ∈ (store_weather_data (some data) upstream putOk).2,
          w.2.daily_data.date = []) := by
  have hred := swd_steps data lat lon sd ed sdo edo upstream putOk
    hlat hlon htla htlo hsd hed hps hpe
  refine ⟨?_, ?_, ?_⟩
  · rw [hred]
    by_cases hlt : dateKey edo < dateKey sdo
    · rw [if_pos hlt]
      simp [hlt]
    · rw [if_neg hlt]
      cases upstream with
      | nil => simp [hlt]
      | cons r rest => cases putOk <;> simp [hlt]
  · intro hEq
    subst hEq
    rw [hps] at hpe
    have hde : sdo = edo := by injection hpe
    subst hde
    rw [hred, if_neg (lt_irrefl _)]
    cases upstream with
    | nil => simp
    | cons r rest => cases putOk <;> simp
  · intro r rest hup hend w hw
    subst hup
    rw [hred] at hw
    by_cases hlt : dateKey edo < dateKey sdo
    · rw [if_pos hlt] at hw
      simp at hw
    · rw [if_neg hlt] at hw
      cases putOk with
      | false => simp at hw
      | true =>
          simp only [eq_self_iff_true, if_true, List.mem_singleton] at hw
          subst hw
          simp [reshape, numDays_eq_zero hend]

/-- C4 witness: a request with equal start and end dates is not answered
with the range error. -/
theorem C4_witness :
    (store_weather_data (some ⟨some (.str "52.52"), some (.str "13.405"),
        some "2023-01-01", some "2023-01-01"⟩) [] true).1 ≠ (400, RespBody.rangeError) :=
  (C4_range_check ⟨some (.str "52.52"), some (.str "13.405"),
      some "2023-01-01", some "2023-01-01"⟩
    (.finite ⟨false, 52, [5, 2]⟩) (.finite ⟨false, 13, [4, 0, 5]⟩)
    "2023-01-01" "2023-01-01" ⟨2023, 1, 1⟩ ⟨2023, 1, 1⟩ [] true
    (by decide) (by decide) (by decide) (by decide) rfl rfl
    (by decide) (by decide)).2.1 rfl

/-- C7: on a fully successful request the stored record carries the
upstream-resolved coordinates and the original date strings, while the
object key is built from the request coordinates as parsed from the
caller input. -/
theorem C7_resolved_vs_requested (data : ReqBody) (lat lon : PyFloat)
    (sd ed : String) (sdo edo : PyDate) (r : UpstreamResponse)
    (rest : List UpstreamResponse)
    (hlat : toFloat data.latitude = .ok lat)
    (hlon : toFloat data.longitude = .ok lon)
    (htla : truthyFloat lat = true) (htlo : truthyFloat lon = true)
    (hsd : data.start_date = some sd) (hed : data.end_date = some ed)
    (hps : parseDate sd = some sdo) (hpe : parseDate ed = some edo)
    (hord : ¬dateKey edo < dateKey sdo) :
    store_weather_data (some data) (r :: rest) true
      = ((200, RespBody.success (mkFileName lat lon sd ed)),
          [(mkFileName lat lon sd ed,
            { latitude := r.latitude, longitude := r.longitude,
              start_date := sd, end_date := ed,
              daily_data := reshape r.daily })]) := by
  rw [swd_steps data lat lon sd ed sdo edo (r :: rest) true
    hlat hlon htla htlo hsd hed hps hpe, if_neg hord]
  rfl

/-- C7 witness: the spec scenario request against an upstream that
resolves the coordinates to a nearby grid point 52.5, 13.4; the key uses
the request values 52.52, 13.405 while the record body stores the
resolved pair. -/
theorem C7_witness :
    store_weather_data (some ⟨some (.str "52.52"), some (.str "13.405"),
        some "2023-01-01", some "2023-01-03"⟩)
      [⟨PyFloat.finite ⟨false, 52, [5]⟩, PyFloat.finite ⟨false, 13, [4]⟩,
        ⟨1672531200, 1672704000, 86400, fun _ => []⟩⟩] true
      = ((200, RespBody.success (mkFileName (.finite ⟨false, 52, [5, 2]⟩)
            (.finite ⟨false, 13, [4, 0, 5]⟩) "2023-01-01" "2023-01-03")),
          [(mkFileName (.finite ⟨false, 52, [5, 2]⟩) (.finite ⟨false, 13, [4, 0, 5]⟩)
              "2023-01-01" "2023-01-03",
            { latitude := PyFloat.finite ⟨false, 52, [5]⟩,
              longitude := PyFloat.finite ⟨false, 13, [4]⟩,
              start_date := "2023-01-01", end_date := "2023-01-03",
              daily_data := reshape ⟨1672531200, 1672704000, 86400, fun _ => []⟩ })]) :=
  C7_resolved_vs_requested ⟨some (.str "52.52"), some (.str "13.405"),
      some "2023-01-01", some "2023-01-03"⟩
    (.finite ⟨false, 52, [5, 2]⟩) (.finite ⟨false, 13, [4, 0, 5]⟩)
    "2023-01-01" "2023-01-03" ⟨2023, 1, 1⟩ ⟨2023, 1, 3⟩ _ _
    (by decide) (by decide) (by decide) (by decide) rfl rfl
    (by decide) (by decide) (by decide)

/-- C1 (amended): the pipeline contains no column-length validation: for
every upstream daily block, whatever the lengths of its six columns, the
request succeeds with 200 and the record is stored with the columns
copied verbatim, so the equal-length invariant is not enforced. -/
theorem C1_no_length_check (data : ReqBody) (lat lon : PyFloat)
    (sd ed : String) (sdo edo : PyDate)
    (hlat : toFloat data.latitude = .ok lat)
    (hlon : toFloat data.longitude = .ok lon)
    (htla : truthyFloat lat = true) (htlo : truthyFloat lon = true)
    (hsd : data.start_date = some sd) (hed : data.end_date = some ed)
    (hps : parseDate sd = some sdo) (hpe : parseDate ed = some edo)
    (hord : ¬dateKey edo < dateKey sdo) :
    ∀ (r : UpstreamResponse) (rest : List UpstreamResponse),
      (store_weather_data (some data) (r :: rest) true).1.1 = 200
      ∧ ∀ w ∈ (store_weather_data (some data) (r :: rest) true).2,
          w.2.daily_data.temperature_2m_max = r.daily.cols 0
          ∧ w.2.daily_data.temperature_2m_min = r.daily.cols 1
          ∧ w.2.daily_data.temperature_2m_mean = r.daily.cols 2
          ∧ w.2.daily_data.apparent_temperature_max = r.daily.cols 3
          ∧ w.2.daily_data.apparent_temperature_min = r.daily.cols 4
          ∧ w.2.daily_data.apparent_temperature_mean = r.daily.cols 5 := by
  intro r rest
  have hred := swd_steps data lat lon sd ed sdo edo (r :: rest) true
    hlat hlon htla htlo hsd hed hps hpe
  rw [hred, if_neg hord]
  constructor
  · rfl
  · intro w hw
    simp only [eq_self_iff_true, if_true, List.mem_singleton] at hw
    subst hw
    exact ⟨rfl, rfl, rfl, rfl, rfl, rfl⟩

/-- C1 counterexample: an upstream block spanning two days whose columns
hold a single value each is stored with 200 (date list of length 2,
columns of length 1), not rejected with a 500 shape error. -/
theorem C1_counterexample :
    (store_weather_data (some ⟨some (.str "52.52"), some (.str "13.405"),
        some "2023-01-01", some "2023-01-03"⟩)
      [⟨PyFloat.finite ⟨false, 52, [5]⟩, PyFloat.finite ⟨false, 13, [4]⟩,
        ⟨1672531200, 1672704000, 86400, fun _ => [PyFloat.finite ⟨false, 1, []⟩]⟩⟩]
      true).1.1 = 200
    ∧ ((store_weather_data (some ⟨some (.str "52.52"), some (.str "13.405"),
        some "2023-01-01", some "2023-01-03"⟩)
      [⟨PyFloat.finite ⟨false, 52, [5]⟩, PyFloat.finite ⟨false, 13, [4]⟩,
        ⟨1672531200, 1672704000, 86400, fun _ => [PyFloat.finite ⟨false, 1, []⟩]⟩⟩]
      true).2.map (fun w => (w.2.daily_data.date.length,
        w.2.daily_data.temperature_2m_max.length))) = [(2, 1)] := by
  decide

/-- C1 witness: the amended no-length-check theorem applied to the
mismatched two-day block. -/
theorem C1_witness :
    (store_weather_data (some ⟨some (.str "52.52"), some (.str "13.405"),
        some "2023-01-01", some "2023-01-03"⟩)
      [⟨PyFloat.finite ⟨false, 52, [5]⟩, PyFloat.finite ⟨false, 13, [4]⟩,
        ⟨1672531200, 1672704000, 86400, fun _ => [PyFloat.finite ⟨false, 1, []⟩]⟩⟩]
      true).1.1 = 200 :=
  (C1_no_length_check ⟨some (.str "52.52"), some (.str "13.405"),
      some "2023-01-01", some "2023-01-03"⟩
    (.finite ⟨false, 52, [5, 2]⟩) (.finite ⟨false, 13, [4, 0, 5]⟩)
    "2023-01-01" "2023-01-03" ⟨2023, 1, 1⟩ ⟨2023, 1, 3⟩
    (by decide) (by decide) (by decide) (by decide) rfl rfl
    (by decide) (by decide) (by decide)
    ⟨PyFloat.finite ⟨false, 52, [5]⟩, PyFloat.finite ⟨false, 13, [4]⟩,
      ⟨1672531200, 1672704000, 86400, fun _ => [PyFloat.finite ⟨false, 1, []⟩]⟩⟩ []).1

/-- C6: the reshaper emits exactly the instants time + k * interval for
the k below the step count, each formatted %Y-%m-%d, the count being
characterized by the half-open bound, and copies column i verbatim into
the i-th named array. -/
theorem C6_reshaper (d : DailyBlock) (hpos : 0 < d.interval) :
    (reshape d).date = (List.range (numDays d)).map
        (fun k => fmtDate (d.time + (k : Int) * (d.interval : Int)))
    ∧ (∀ k : Nat, k < numDays d ↔ d.time + (k : Int) * (d.interval : Int) < d.timeEnd)
    ∧ (reshape d).temperature_2m_max = d.cols 0
    ∧ (reshape d).temperature_2m_min = d.cols 1
    ∧ (reshape d).temperature_2m_mean = d.cols 2
    ∧ (reshape d).apparent_temperature_max = d.cols 3
    ∧ (reshape d).apparent_temperature_min = d.cols 4
    ∧ (reshape d).apparent_temperature_mean = d.cols 5 :=
  ⟨rfl, lt_numDays_iff d hpos, rfl, rfl, rfl, rfl, rfl, rfl⟩

/-- C6 witness: the two-day block of the spec scenario, whose generated
dates are 2023-01-01 and 2023-01-02. -/
theorem C6_witness :
    (reshape ⟨1672531200, 1672704000, 86400, fun _ => []⟩).date
        = (List.range (numDays ⟨1672531200, 1672704000, 86400, fun _ => []⟩)).map
            (fun k => fmtDate ((1672531200 : Int) + (k : Int) * ((86400 : Nat) : Int)))
    ∧ (reshape ⟨1672531200, 1672704000, 86400, fun _ => []⟩).date
        = ["2023-01-01", "2023-01-02"] :=
  ⟨(C6_reshaper ⟨1672531200, 1672704000, 86400, fun _ => []⟩ (by decide)).1, by decide⟩

theorem mk_inj_lat {l1 l2 lon : PyFloat} {sd ed : String}
    (h : mkFileName l1 lon sd ed = mkFileName l2 lon sd ed) :
    pyRepr l1 = pyRepr l2 := by
  have hd := congrArg String.data h
  simp only [mkFileName, strDataAppend, List.append_assoc] at hd
  have h1 := List.append_cancel_left hd
  exact strData_inj (List.append_cancel_right h1)

theorem mk_inj_lon {lat o1 o2 : PyFloat} {sd ed : String}
    (h : mkFileName lat o1 sd ed = mkFileName lat o2 sd ed) :
    pyRepr o1 = pyRepr o2 := by
  have hd := congrArg String.data h
  simp only [mkFileName, strDataAppend, List.append_assoc] at hd
  have h1 := List.append_cancel_left hd
  have h2 := List.append_cancel_left h1
  have h3 := List.append_cancel_left h2
  exact strData_inj (List.append_cancel_right h3)

theorem mk_inj_sd {lat lon : PyFloat} {s1 s2 ed : String}
    (h : mkFileName lat lon s1 ed = mkFileName lat lon s2 ed) : s1 = s2 := by
  have hd := congrArg String.data h
  simp only [mkFileName, strDataAppend, List.append_assoc] at hd
  have h1 := List.append_cancel_left hd
  have h2 := List.append_cancel_left h1
  have h3 := List.append_cancel_left h2
  have h4 := List.append_cancel_left h3
  have h5 := List.append_cancel_left h4
  exact strData_inj (List.append_cancel_right h5)

theorem mk_inj_ed {lat lon : PyFloat} {sd e1 e2 : String}
    (h : mkFileName lat lon sd e1 = mkFileName lat lon sd e2) : e1 = e2 := by
  have hd := congrArg String.data h
  simp only [mkFileName, strDataAppend, List.append_assoc] at hd
  have h1 := List.append_cancel_left hd
  have h2 := List.append_cancel_left h1
  have h3 := List.append_cancel_left h2
  have h4 := List.append_cancel_left h3
  have h5 := List.append_cancel_left h4
  have h6 := List.append_cancel_left h5
  have h7 := List.append_cancel_left h6
  exact strData_inj (List.append_cancel_right h7)

/-- C5: the object key is the pure deterministic f-string of the request
floats and original date strings; identical inputs give identical keys,
canonical inputs differing in a single field give different keys, and the
spec scenario input gives exactly the expected key. -/
theorem C5_object_key :
    (∀ (lat lon : PyFloat) (sd ed : String),
        mkFileName lat lon sd ed
          = "weather_data_" ++ pyRepr lat ++ "_" ++ pyRepr lon ++ "_" ++ sd
            ++ "_to_" ++ ed ++ ".json")
    ∧ (∀ (lat lon : PyFloat) (sd ed : String),
        mkFileName lat lon sd ed = mkFileName lat lon sd ed)
    ∧ (∀ (l1 l2 lon : PyFloat) (sd ed : String), canonicalPF l1 → canonicalPF l2 →
        l1 ≠ l2 → mkFileName l1 lon sd ed ≠ mkFileName l2 lon sd ed)
    ∧ (∀ (lat o1 o2 : PyFloat) (sd ed : String), canonicalPF o1 → canonicalPF o2 →
        o1 ≠ o2 → mkFileName lat o1 sd ed ≠ mkFileName lat o2 sd ed)
    ∧ (∀ (lat lon : PyFloat) (s1 s2 ed : String), s1 ≠ s2 →
        mkFileName lat lon s1 ed ≠ mkFileName lat lon s2 ed)
    ∧ (∀ (lat lon : PyFloat) (sd e1 e2 : String), e1 ≠ e2 →
        mkFileName lat lon sd e1 ≠ mkFileName lat lon sd e2)
    ∧ (pyFloatOfString "52.52" = some (.finite ⟨false, 52, [5, 2]⟩)
        ∧ pyFloatOfString "13.405" = some (.finite ⟨false, 13, [4, 0, 5]⟩)
        ∧ mkFileName (.finite ⟨false, 52, [5, 2]⟩) (.finite ⟨false, 13, [4, 0, 5]⟩)
            "2023-01-01" "2023-01-03"
          = "weather_data_52.52_13.405_2023-01-01_to_2023-01-03.json") := by
  refine ⟨fun _ _ _ _ => rfl, fun _ _ _ _ => rfl, ?_, ?_, ?_, ?_, by decide⟩
  · intro l1 l2 lon sd ed hc1 hc2 hne h
    exact hne (pyRepr_inj hc1 hc2 (mk_inj_lat h))
  · intro lat o1 o2 sd ed hc1 hc2 hne h
    exact hne (pyRepr_inj hc1 hc2 (mk_inj_lon h))
  · intro lat lon s1 s2 ed hne h
    exact hne (mk_inj_sd h)
  · intro lat lon sd e1 e2 hne h
    exact hne (mk_inj_ed h)

/-- C5 witness: two canonical latitudes 52.52 and 52.5 with the other
three fields fixed give different keys. -/
theorem C5_witness :
    mkFileName (.finite ⟨false, 52, [5, 2]⟩) (.finite ⟨false, 13, [4, 0, 5]⟩)
        "2023-01-01" "2023-01-03"
      ≠ mkFileName (.finite ⟨false, 52, [5]⟩) (.finite ⟨false, 13, [4, 0, 5]⟩)
        "2023-01-01" "2023-01-03" :=
  C5_object_key.2.2.1 (.finite ⟨false, 52, [5, 2]⟩) (.finite ⟨false, 52, [5]⟩)
    (.finite ⟨false, 13, [4, 0, 5]⟩) "2023-01-01" "2023-01-03"
    (by decide) (by decide) (by decide)

end InRiskApi
